import Mathlib

/-!
Verification development for the certificate backend (Express + Supabase
storage + PostgreSQL).  The embedding follows `src/unnamed/part_000`
(variant B: fields `title`, `provider`, `date`, `link`; routes include the
provider filter and the oldest/newest sorted listings).  `src/app.js`
(variant A) has identical control flow modulo field names
(`name`/`description`/`category` instead of `title`/`provider`/`date`) and
lacks the variant-B-only listing routes.

External effects are made explicit:
* the object store is the list of blob paths currently stored;
* the relational table is the list of rows plus the next serial id;
* each external call that can fail (the Supabase upload, each `pool.query`)
  takes an `Option String` oracle: `none` means the call succeeds, `some msg`
  means it reports an error with message `msg` (in the source this makes the
  handler `throw`, caught by the surrounding `try`/`catch` as a 500).
The upload mutates the store only when it succeeds; a SQL statement is
atomic, so a failing statement leaves the table unchanged.
-/

namespace Backend

/-- A multer in-memory upload: `req.file`. -/
structure UploadedFile where
  originalname : String
  buffer : String
  mimetype : String
deriving Repr, DecidableEq

/-- The metadata fields destructured from `req.body`
(`const { title, provider, date, link } = req.body`); a field absent from
the request is `none` (JS `undefined`, bound as SQL NULL). -/
structure Body where
  title : Option String
  provider : Option String
  date : Option String
  link : Option String
deriving Repr, DecidableEq

/-- One row of the `certificates` table. -/
structure Row where
  id : Nat
  title : Option String
  provider : Option String
  date : Option String
  link : Option String
  image : Option String
deriving Repr, DecidableEq

/-- Combined external state: the object-store bucket (set of blob paths,
as a list), the `certificates` table, and the serial id counter the
relational store uses for inserts. -/
structure St where
  store : List String
  rows : List Row
  nextId : Nat
deriving Repr, DecidableEq

/-- An HTTP response: `res.status(code).json(body)` with a row body, an
array body, or an `{ error: msg }` body. -/
inductive Resp where
  | row : Nat → Row → Resp
  | list : Nat → List Row → Resp
  | err : Nat → String → Resp
deriving Repr, DecidableEq

/-- JS truthiness of an optional string field: `!title` is true when the
field is `undefined` or the empty string. -/
def jsTruthy : Option String → Bool
  | none => false
  | some s => !(s == "")

/-- The object-store path of an upload:
`` `public/${file.originalname}` ``. -/
def storagePath (filename : String) : String :=
  "public/" ++ filename

/-- The public URL the handlers build:
`` `${supabaseUrl}/storage/v1/object/public/images/public/${file.originalname}` ``. -/
def publicURL (supabaseUrl filename : String) : String :=
  supabaseUrl ++ "/storage/v1/object/public/images/public/" ++ filename

/-- A successful upload makes the blob present at its path (uploading an
already-present path leaves the set of stored paths unchanged: same-name
uploads collide on the same path). -/
def insertPath (p : String) (store : List String) : List String :=
  if p ∈ store then store else store ++ [p]

/-- SQL `SELECT * FROM certificates WHERE id = $1`. -/
def selectById (id : Nat) (rows : List Row) : List Row :=
  rows.filter (fun r => r.id == id)

/-- Route `POST /certificate` (lines 32–64): validate `!title || !file`, upload
the blob, then `INSERT ... RETURNING *`.  `uploadErr` is the Supabase
`uploadError`, `insertErr` a thrown `pool.query` error. -/
def postCertificate (supabaseUrl : String) (body : Body) (file : Option UploadedFile)
    (uploadErr insertErr : Option String) (s : St) : Resp × St :=
  match file with
  | none => (Resp.err 400 "Title and image are required", s)
  | some f =>
    if jsTruthy body.title then
      match uploadErr with
      | some msg => (Resp.err 500 msg, s)
      | none =>
        let s1 : St := { s with store := insertPath (storagePath f.originalname) s.store }
        match insertErr with
        | some msg => (Resp.err 500 msg, s1)
        | none =>
          let newRow : Row :=
            { id := s1.nextId, title := body.title, provider := body.provider,
              date := body.date, link := body.link,
              image := some (publicURL supabaseUrl f.originalname) }
          (Resp.row 200 newRow,
           { s1 with rows := s1.rows ++ [newRow], nextId := s1.nextId + 1 })
    else (Resp.err 400 "Title and image are required", s)

/-- Route `GET /certificates` (lines 68–75): `SELECT * FROM certificates`. -/
def getCertificates (queryErr : Option String) (s : St) : Resp × St :=
  match queryErr with
  | some msg => (Resp.err 500 msg, s)
  | none => (Resp.list 200 s.rows, s)

/-- Route `GET /certificate/:id` (lines 78–92). -/
def getCertificate (id : Nat) (queryErr : Option String) (s : St) : Resp × St :=
  match queryErr with
  | some msg => (Resp.err 500 msg, s)
  | none =>
    match selectById id s.rows with
    | [] => (Resp.err 404 "Certificate not found", s)
    | r :: _ => (Resp.row 200 r, s)

/-- The row transformation of the UPDATE statement:
`SET title = $1, provider = $2, date = $3, link = $4, image = COALESCE($5, image)`. -/
def applyUpdate (body : Body) (url : Option String) (r : Row) : Row :=
  { r with title := body.title, provider := body.provider, date := body.date,
           link := body.link,
           image := match url with | some v => some v | none => r.image }

/-- SQL `UPDATE certificates SET ... WHERE id = $6 RETURNING *`: the new table
contents and the returned (updated) rows. -/
def sqlUpdate (id : Nat) (body : Body) (url : Option String) (rows : List Row) :
    List Row × List Row :=
  (rows.map (fun r => if r.id == id then applyUpdate body url r else r),
   (rows.filter (fun r => r.id == id)).map (applyUpdate body url))

/-- The database half of the PUT handler (lines 118–132), after `publicURL`
has been computed. -/
def runUpdate (id : Nat) (body : Body) (url : Option String)
    (updateErr : Option String) (s : St) : Resp × St :=
  match updateErr with
  | some msg => (Resp.err 500 msg, s)
  | none =>
    let rows2 := (sqlUpdate id body url s.rows).1
    match (sqlUpdate id body url s.rows).2 with
    | [] => (Resp.err 404 "Certificate not found", { s with rows := rows2 })
    | r :: _ => (Resp.row 200 r, { s with rows := rows2 })

/-- Route `PUT /certificate/:id` (lines 95–136): `publicURL` starts as `null`;
if a file is present it is uploaded (an upload error throws, → 500) and
`publicURL` is set; then the UPDATE runs. -/
def putCertificate (supabaseUrl : String) (id : Nat) (body : Body)
    (file : Option UploadedFile) (uploadErr updateErr : Option String) (s : St) :
    Resp × St :=
  match file with
  | none => runUpdate id body none updateErr s
  | some f =>
    match uploadErr with
    | some msg => (Resp.err 500 msg, s)
    | none =>
      let s1 : St := { s with store := insertPath (storagePath f.originalname) s.store }
      runUpdate id body (some (publicURL supabaseUrl f.originalname)) updateErr s1

/-- Route `DELETE /certificate/:id` (lines 139–153):
`DELETE FROM certificates WHERE id = $1 RETURNING *`. -/
def deleteCertificate (id : Nat) (deleteErr : Option String) (s : St) : Resp × St :=
  match deleteErr with
  | some msg => (Resp.err 500 msg, s)
  | none =>
    let rows2 := s.rows.filter (fun r => !(r.id == id))
    match s.rows.filter (fun r => r.id == id) with
    | [] => (Resp.err 404 "Certificate not found", { s with rows := rows2 })
    | r :: _ => (Resp.row 200 r, { s with rows := rows2 })

/-- Route `GET /certificates/provider/:provider` (lines 156–165):
`SELECT * FROM certificates WHERE provider = $1`. -/
def getCertificatesByProvider (p : String) (queryErr : Option String) (s : St) :
    Resp × St :=
  match queryErr with
  | some msg => (Resp.err 500 msg, s)
  | none => (Resp.list 200 (s.rows.filter (fun r => r.provider == some p)), s)

/-- PostgreSQL `ORDER BY date ASC` comparison (NULLS LAST for ascending
order). -/
def dateLeAsc (r1 r2 : Row) : Bool :=
  match r1.date, r2.date with
  | some d1, some d2 => decide (d1 ≤ d2)
  | some _, none => true
  | none, some _ => false
  | none, none => true

/-- PostgreSQL `ORDER BY date DESC` comparison (NULLS FIRST for descending
order). -/
def dateLeDesc (r1 r2 : Row) : Bool :=
  match r1.date, r2.date with
  | some d1, some d2 => decide (d2 ≤ d1)
  | some _, none => false
  | none, _ => true

/-- Route `GET /certificates/oldest` (lines 168–175):
`SELECT * FROM certificates ORDER BY date ASC`. -/
def getCertificatesOldest (queryErr : Option String) (s : St) : Resp × St :=
  match queryErr with
  | some msg => (Resp.err 500 msg, s)
  | none => (Resp.list 200 (s.rows.mergeSort dateLeAsc), s)

/-- Route `GET /certificates/newest` (lines 178–185):
`SELECT * FROM certificates ORDER BY date DESC`. -/
def getCertificatesNewest (queryErr : Option String) (s : St) : Resp × St :=
  match queryErr with
  | some msg => (Resp.err 500 msg, s)
  | none => (Resp.list 200 (s.rows.mergeSort dateLeDesc), s)

/-- Every state-relevant operation of the service, with its oracle inputs. -/
inductive Op where
  | create (supabaseUrl : String) (body : Body) (file : Option UploadedFile)
      (uploadErr insertErr : Option String)
  | listAll (queryErr : Option String)
  | getOne (id : Nat) (queryErr : Option String)
  | update (supabaseUrl : String) (id : Nat) (body : Body) (file : Option UploadedFile)
      (uploadErr updateErr : Option String)
  | delete (id : Nat) (deleteErr : Option String)
  | byProvider (p : String) (queryErr : Option String)
  | oldest (queryErr : Option String)
  | newest (queryErr : Option String)

/-- Dispatch an operation against the state. -/
def runOp : Op → St → Resp × St
  | Op.create u b f ue ie, s => postCertificate u b f ue ie s
  | Op.listAll e, s => getCertificates e s
  | Op.getOne i e, s => getCertificate i e s
  | Op.update u i b f ue upe, s => putCertificate u i b f ue upe s
  | Op.delete i e, s => deleteCertificate i e s
  | Op.byProvider p e, s => getCertificatesByProvider p e s
  | Op.oldest e, s => getCertificatesOldest e s
  | Op.newest e, s => getCertificatesNewest e s

/-! ### Helper lemmas -/

theorem mem_insertPath (p : String) (store : List String) : p ∈ insertPath p store := by
  unfold insertPath
  split
  · assumption
  · simp

theorem sublist_insertPath (p : String) (store : List String) :
    List.Sublist store (insertPath p store) := by
  unfold insertPath
  split
  · exact List.Sublist.refl _
  · exact List.sublist_append_left _ _

/-! ### C1 -/

/-- C1: in Create, when the object-store upload reports an error, the handler
returns a 500 error with that message and the state — both the blob store and
the `certificates` table — is exactly what it was; the result does not depend
on the insert oracle at all, since the relational insert is never attempted
(the upload strictly precedes the database statement). -/
theorem create_upload_error_aborts (u : String) (b : Body) (f : UploadedFile)
    (msg : String) (insertErr : Option String) (s : St)
    (ht : jsTruthy b.title = true) :
    postCertificate u b (some f) (some msg) insertErr s = (Resp.err 500 msg, s) := by
  simp [postCertificate, ht]

theorem create_upload_error_aborts_w :
    postCertificate "http://sb" ⟨some "AWS Cert", none, none, none⟩
        (some ⟨"aws.png", "bytes", "image/png"⟩) (some "network down") (some "db down")
        ⟨["public/old.png"], [], 1⟩
      = (Resp.err 500 "network down", ⟨["public/old.png"], [], 1⟩) :=
  create_upload_error_aborts "http://sb" ⟨some "AWS Cert", none, none, none⟩
    ⟨"aws.png", "bytes", "image/png"⟩ "network down" (some "db down")
    ⟨["public/old.png"], [], 1⟩ (by decide)

/-! ### C4 -/

/-- C4: a creation request that lacks the required title field or lacks a
file gets a 400 error, and the state is exactly what it was, whatever the
upload and insert oracles would have said: neither external call happens. -/
theorem create_validation_no_effects (u : String) (b : Body)
    (file : Option UploadedFile) (uploadErr insertErr : Option String) (s : St)
    (h : b.title = none ∨ file = none) :
    postCertificate u b file uploadErr insertErr s
      = (Resp.err 400 "Title and image are required", s) := by
  rcases h with h | h
  · cases file with
    | none => simp [postCertificate]
    | some f => simp [postCertificate, h, jsTruthy]
  · simp [postCertificate, h]

theorem create_validation_no_effects_w :
    postCertificate "http://sb" ⟨none, some "AWS", none, none⟩
        (some ⟨"aws.png", "bytes", "image/png"⟩) none none ⟨[], [], 1⟩
      = (Resp.err 400 "Title and image are required", ⟨[], [], 1⟩) :=
  create_validation_no_effects "http://sb" ⟨none, some "AWS", none, none⟩
    (some ⟨"aws.png", "bytes", "image/png"⟩) none none ⟨[], [], 1⟩ (Or.inl rfl)

/-! ### C3 -/

/-- C3: a valid creation request (truthy title, file present, both external
calls succeeding) responds 200 with a row that is in the resulting table,
whose `image` is exactly the concatenation of the store base URL, the fixed
path `/storage/v1/object/public/images/public/`, and the original
client-supplied filename of the file; and the blob is stored under the object-store path
`public/<original filename>`. -/
theorem create_success_url_and_path (u : String) (b : Body) (f : UploadedFile)
    (s : St) (ht : jsTruthy b.title = true) :
    ∃ r : Row,
      (postCertificate u b (some f) none none s).1 = Resp.row 200 r ∧
      r ∈ (postCertificate u b (some f) none none s).2.rows ∧
      r.image = some (u ++ "/storage/v1/object/public/images/public/" ++ f.originalname) ∧
      ("public/" ++ f.originalname) ∈ (postCertificate u b (some f) none none s).2.store := by
  refine ⟨{ id := s.nextId, title := b.title, provider := b.provider, date := b.date,
            link := b.link, image := some (publicURL u f.originalname) },
          ?_, ?_, ?_, ?_⟩
  · simp [postCertificate, ht]
  · simp [postCertificate, ht]
  · simp [publicURL]
  · simpa [postCertificate, ht, storagePath] using
      mem_insertPath (storagePath f.originalname) s.store

theorem create_success_url_and_path_w :
    ∃ r : Row,
      (postCertificate "http://sb" ⟨some "AWS Cert", none, none, none⟩
          (some ⟨"aws.png", "bytes", "image/png"⟩) none none ⟨[], [], 1⟩).1
        = Resp.row 200 r ∧
      r ∈ (postCertificate "http://sb" ⟨some "AWS Cert", none, none, none⟩
          (some ⟨"aws.png", "bytes", "image/png"⟩) none none ⟨[], [], 1⟩).2.rows ∧
      r.image = some ("http://sb" ++ "/storage/v1/object/public/images/public/" ++ "aws.png") ∧
      ("public/" ++ "aws.png") ∈ (postCertificate "http://sb" ⟨some "AWS Cert", none, none, none⟩
          (some ⟨"aws.png", "bytes", "image/png"⟩) none none ⟨[], [], 1⟩).2.store :=
  create_success_url_and_path "http://sb" ⟨some "AWS Cert", none, none, none⟩
    ⟨"aws.png", "bytes", "image/png"⟩ ⟨[], [], 1⟩ (by decide)

/-! ### More helper lemmas -/

theorem filter_id_eq_nil (id : Nat) (rows : List Row) (h : ∀ r ∈ rows, r.id ≠ id) :
    rows.filter (fun r => r.id == id) = [] :=
  List.filter_eq_nil_iff.mpr (by intro r hr; simpa using h r hr)

theorem filter_ne_id_eq_self (id : Nat) (rows : List Row) (h : ∀ r ∈ rows, r.id ≠ id) :
    rows.filter (fun r => !(r.id == id)) = rows :=
  List.filter_eq_self.mpr (by intro r hr; simpa using h r hr)

theorem update_map_id_eq_self (id : Nat) (b : Body) (url : Option String)
    (rows : List Row) (h : ∀ r ∈ rows, r.id ≠ id) :
    rows.map (fun r => if r.id = id then applyUpdate b url r else r) = rows := by
  induction rows with
  | nil => rfl
  | cons a l ih =>
    rw [List.map_cons, if_neg (h a (List.mem_cons_self a l)),
      ih (fun r hr => h r (List.mem_cons_of_mem a hr))]

/-! ### C10 -/

/-- C10: Update with a file on an identifier matching no row still uploads
the blob (it is present in the object store afterwards) and only then
reports 404; the table is unchanged. -/
theorem update_missing_id_uploads_then_404 (u : String) (id : Nat) (b : Body)
    (f : UploadedFile) (s : St) (h : ∀ r ∈ s.rows, r.id ≠ id) :
    (putCertificate u id b (some f) none none s).1
      = Resp.err 404 "Certificate not found" ∧
    ("public/" ++ f.originalname) ∈ (putCertificate u id b (some f) none none s).2.store ∧
    (putCertificate u id b (some f) none none s).2.rows = s.rows := by
  have hnil := filter_id_eq_nil id s.rows h
  have hmap := update_map_id_eq_self id b (some (publicURL u f.originalname)) s.rows h
  refine ⟨?_, ?_, ?_⟩
  · simp [putCertificate, runUpdate, sqlUpdate, hnil]
  · simpa [putCertificate, runUpdate, sqlUpdate, hnil, storagePath] using
      mem_insertPath (storagePath f.originalname) s.store
  · simp [putCertificate, runUpdate, sqlUpdate, hnil, hmap]

theorem update_missing_id_uploads_then_404_w :
    (putCertificate "http://sb" 2 ⟨some "t2", none, none, none⟩
        (some ⟨"new.png", "bytes", "image/png"⟩) none none
        ⟨[], [⟨1, some "t1", none, none, none, some "img1"⟩], 2⟩).1
      = Resp.err 404 "Certificate not found" ∧
    ("public/" ++ "new.png") ∈ (putCertificate "http://sb" 2 ⟨some "t2", none, none, none⟩
        (some ⟨"new.png", "bytes", "image/png"⟩) none none
        ⟨[], [⟨1, some "t1", none, none, none, some "img1"⟩], 2⟩).2.store ∧
    (putCertificate "http://sb" 2 ⟨some "t2", none, none, none⟩
        (some ⟨"new.png", "bytes", "image/png"⟩) none none
        ⟨[], [⟨1, some "t1", none, none, none, some "img1"⟩], 2⟩).2.rows
      = [⟨1, some "t1", none, none, none, some "img1"⟩] :=
  update_missing_id_uploads_then_404 "http://sb" 2 ⟨some "t2", none, none, none⟩
    ⟨"new.png", "bytes", "image/png"⟩
    ⟨[], [⟨1, some "t1", none, none, none, some "img1"⟩], 2⟩ (by decide)

/-! ### C7 -/

/-- C7: on an identifier matching no row, Get responds 404 with the state
untouched; Update (with or without a file, external calls succeeding)
responds 404 and leaves the table exactly as it was; Delete responds 404
with the state untouched. -/
theorem missing_id_404_table_unchanged (u : String) (id : Nat) (b : Body)
    (file : Option UploadedFile) (s : St) (h : ∀ r ∈ s.rows, r.id ≠ id) :
    getCertificate id none s = (Resp.err 404 "Certificate not found", s) ∧
    (putCertificate u id b file none none s).1 = Resp.err 404 "Certificate not found" ∧
    (putCertificate u id b file none none s).2.rows = s.rows ∧
    deleteCertificate id none s = (Resp.err 404 "Certificate not found", s) := by
  have hnil := filter_id_eq_nil id s.rows h
  refine ⟨?_, ?_, ?_, ?_⟩
  · simp [getCertificate, selectById, hnil]
  · cases file with
    | none => simp [putCertificate, runUpdate, sqlUpdate, hnil]
    | some f => simp [putCertificate, runUpdate, sqlUpdate, hnil]
  · cases file with
    | none =>
      simp [putCertificate, runUpdate, sqlUpdate, hnil,
        update_map_id_eq_self id b none s.rows h]
    | some f =>
      simp [putCertificate, runUpdate, sqlUpdate, hnil,
        update_map_id_eq_self id b (some (publicURL u f.originalname)) s.rows h]
  · simp [deleteCertificate, hnil, filter_ne_id_eq_self id s.rows h]

theorem missing_id_404_table_unchanged_w :
    getCertificate 2 none ⟨[], [⟨1, some "t1", none, none, none, some "img1"⟩], 2⟩
      = (Resp.err 404 "Certificate not found",
         ⟨[], [⟨1, some "t1", none, none, none, some "img1"⟩], 2⟩) ∧
    (putCertificate "http://sb" 2 ⟨some "t2", none, none, none⟩ none none none
        ⟨[], [⟨1, some "t1", none, none, none, some "img1"⟩], 2⟩).1
      = Resp.err 404 "Certificate not found" ∧
    (putCertificate "http://sb" 2 ⟨some "t2", none, none, none⟩ none none none
        ⟨[], [⟨1, some "t1", none, none, none, some "img1"⟩], 2⟩).2.rows
      = [⟨1, some "t1", none, none, none, some "img1"⟩] ∧
    deleteCertificate 2 none ⟨[], [⟨1, some "t1", none, none, none, some "img1"⟩], 2⟩
      = (Resp.err 404 "Certificate not found",
         ⟨[], [⟨1, some "t1", none, none, none, some "img1"⟩], 2⟩) :=
  missing_id_404_table_unchanged "http://sb" 2 ⟨some "t2", none, none, none⟩ none
    ⟨[], [⟨1, some "t1", none, none, none, some "img1"⟩], 2⟩ (by decide)

/-! ### Update helper lemmas -/

theorem runUpdate_state (id : Nat) (b : Body) (url : Option String) (s : St) :
    (runUpdate id b url none s).2 = { s with rows := (sqlUpdate id b url s.rows).1 } := by
  cases h : (sqlUpdate id b url s.rows).2 with
  | nil => simp [runUpdate, h]
  | cons r t => simp [runUpdate, h]

theorem image_preserved_no_url (id : Nat) (b : Body) (rows : List Row) :
    (sqlUpdate id b none rows).1.map (fun r => r.image)
      = rows.map (fun r => r.image) := by
  unfold sqlUpdate
  induction rows with
  | nil => rfl
  | cons a l ih =>
    simp only [List.map_cons, ih]
    by_cases hc : a.id = id <;> simp [hc, applyUpdate]

theorem sqlUpdate_image_some (id : Nat) (b : Body) (v : String) (rows : List Row) :
    ∀ r ∈ (sqlUpdate id b (some v) rows).1, r.id = id → r.image = some v := by
  intro r hr hid
  unfold sqlUpdate at hr
  obtain ⟨x, hx, rfl⟩ := List.mem_map.mp hr
  by_cases hc : x.id = id
  · simp [hc, applyUpdate]
  · rw [if_neg (by simpa using hc)] at hid
    exact absurd hid hc

theorem sqlUpdate_metadata (id : Nat) (b : Body) (url : Option String)
    (rows : List Row) :
    ∀ r ∈ (sqlUpdate id b url rows).1, r.id = id →
      r.title = b.title ∧ r.provider = b.provider ∧
      r.date = b.date ∧ r.link = b.link := by
  intro r hr hid
  unfold sqlUpdate at hr
  obtain ⟨x, hx, rfl⟩ := List.mem_map.mp hr
  by_cases hc : x.id = id
  · simp [hc, applyUpdate]
  · rw [if_neg (by simpa using hc)] at hid
    exact absurd hid hc

/-! ### C5 -/

/-- C5: Update without a file preserves the `image` of every row verbatim
(whatever the oracles say, since no upload even happens); Update with a file
(both calls succeeding) gives every row matching the identifier the newly
constructed public URL as its `image`. -/
theorem update_image_semantics (u : String) (id : Nat) (b : Body)
    (f : UploadedFile) (uploadErr updateErr : Option String) (s : St) :
    ((putCertificate u id b none uploadErr updateErr s).2.rows.map (fun r => r.image)
       = s.rows.map (fun r => r.image)) ∧
    (∀ r ∈ (putCertificate u id b (some f) none none s).2.rows,
       r.id = id → r.image = some (publicURL u f.originalname)) := by
  constructor
  · cases updateErr with
    | some m => rfl
    | none =>
      rw [show putCertificate u id b none uploadErr none s
            = runUpdate id b none none s from rfl, runUpdate_state]
      exact image_preserved_no_url id b s.rows
  · intro r hr hid
    rw [show putCertificate u id b (some f) none none s
          = runUpdate id b (some (publicURL u f.originalname)) none
              { s with store := insertPath (storagePath f.originalname) s.store } from rfl,
        runUpdate_state] at hr
    exact sqlUpdate_image_some id b (publicURL u f.originalname) s.rows r hr hid

theorem update_image_semantics_w :
    ((putCertificate "http://sb" 1 ⟨some "t2", some "p2", some "2022-01-01", some "l2"⟩
        none none none
        ⟨[], [⟨1, some "t1", some "p1", some "2021-01-01", some "l1", some "img1"⟩], 2⟩).2.rows.map
          (fun r => r.image)
       = [some "img1"]) ∧
    (Row.image ⟨1, some "t2", some "p2", some "2022-01-01", some "l2",
        some (publicURL "http://sb" "new.png")⟩
      = some (publicURL "http://sb" "new.png")) :=
  ⟨(update_image_semantics "http://sb" 1 ⟨some "t2", some "p2", some "2022-01-01", some "l2"⟩
      ⟨"new.png", "bytes", "image/png"⟩ none none
      ⟨[], [⟨1, some "t1", some "p1", some "2021-01-01", some "l1", some "img1"⟩], 2⟩).1,
   (update_image_semantics "http://sb" 1 ⟨some "t2", some "p2", some "2022-01-01", some "l2"⟩
      ⟨"new.png", "bytes", "image/png"⟩ none none
      ⟨[], [⟨1, some "t1", some "p1", some "2021-01-01", some "l1", some "img1"⟩], 2⟩).2
     ⟨1, some "t2", some "p2", some "2022-01-01", some "l2",
        some (publicURL "http://sb" "new.png")⟩ (by decide) (by decide)⟩

/-! ### C6 -/

/-- C6: after an Update (external calls succeeding), every row matching the
identifier carries exactly the supplied metadata values — a field omitted
from the request (`none`) is written as NULL, not kept. -/
theorem update_overwrites_metadata (u : String) (id : Nat) (b : Body)
    (file : Option UploadedFile) (s : St) :
    ∀ r ∈ (putCertificate u id b file none none s).2.rows, r.id = id →
      r.title = b.title ∧ r.provider = b.provider ∧
      r.date = b.date ∧ r.link = b.link := by
  intro r hr hid
  cases file with
  | none =>
    rw [show putCertificate u id b none none none s
          = runUpdate id b none none s from rfl, runUpdate_state] at hr
    exact sqlUpdate_metadata id b none s.rows r hr hid
  | some f =>
    rw [show putCertificate u id b (some f) none none s
          = runUpdate id b (some (publicURL u f.originalname)) none
              { s with store := insertPath (storagePath f.originalname) s.store } from rfl,
        runUpdate_state] at hr
    exact sqlUpdate_metadata id b (some (publicURL u f.originalname)) s.rows r hr hid

theorem update_overwrites_metadata_w :
    (Row.title ⟨1, some "t2", none, some "2022-01-01", none, some "img1"⟩
       = Body.title ⟨some "t2", none, some "2022-01-01", none⟩) ∧
    (Row.provider ⟨1, some "t2", none, some "2022-01-01", none, some "img1"⟩
       = Body.provider ⟨some "t2", none, some "2022-01-01", none⟩) ∧
    (Row.date ⟨1, some "t2", none, some "2022-01-01", none, some "img1"⟩
       = Body.date ⟨some "t2", none, some "2022-01-01", none⟩) ∧
    (Row.link ⟨1, some "t2", none, some "2022-01-01", none, some "img1"⟩
       = Body.link ⟨some "t2", none, some "2022-01-01", none⟩) :=
  update_overwrites_metadata "http://sb" 1 ⟨some "t2", none, some "2022-01-01", none⟩ none
    ⟨[], [⟨1, some "t1", some "p1", some "2021-01-01", some "l1", some "img1"⟩], 2⟩
    ⟨1, some "t2", none, some "2022-01-01", none, some "img1"⟩ (by decide) (by decide)

/-! ### C8 -/

theorem filter_id_single (id : Nat) (rows : List Row) (r : Row)
    (hn : (rows.map (fun x => x.id)).Nodup) (hr : r ∈ rows) (hid : r.id = id) :
    rows.filter (fun x => x.id == id) = [r] := by
  induction rows with
  | nil => cases hr
  | cons a l ih =>
    rw [List.map_cons, List.nodup_cons] at hn
    rcases List.mem_cons.mp hr with h1 | h1
    · subst h1
      rw [List.filter_cons_of_pos (by simpa using hid)]
      have hrest : l.filter (fun x => x.id == id) = [] := by
        apply List.filter_eq_nil_iff.mpr
        intro x hx
        simp only [beq_iff_eq]
        intro he
        exact hn.1 (by rw [hid, ← he]; exact List.mem_map_of_mem _ hx)
      rw [hrest]
    · have hne : a.id ≠ id := by
        intro he
        exact hn.1 (by rw [he, ← hid]; exact List.mem_map_of_mem _ h1)
      rw [List.filter_cons_of_neg (by simpa using hne)]
      exact ih hn.2 h1

/-- C8: on a table with distinct ids, Delete on an existing identifier
responds 200 with the row carrying that identifier and the resulting table
keeps exactly the rows with a different identifier; a subsequent Get on the
same identifier responds 404 and changes nothing. -/
theorem delete_removes_exactly (id : Nat) (s : St) (r : Row)
    (hn : (s.rows.map (fun x => x.id)).Nodup) (hr : r ∈ s.rows) (hid : r.id = id) :
    deleteCertificate id none s
      = (Resp.row 200 r, { s with rows := s.rows.filter (fun x => !(x.id == id)) }) ∧
    getCertificate id none (deleteCertificate id none s).2
      = (Resp.err 404 "Certificate not found", (deleteCertificate id none s).2) := by
  have hf := filter_id_single id s.rows r hn hr hid
  have hdel : deleteCertificate id none s
      = (Resp.row 200 r, { s with rows := s.rows.filter (fun x => !(x.id == id)) }) := by
    simp [deleteCertificate, hf]
  refine ⟨hdel, ?_⟩
  rw [hdel]
  have hnone : (s.rows.filter (fun x => !(x.id == id))).filter
      (fun x => x.id == id) = [] := by
    apply List.filter_eq_nil_iff.mpr
    intro x hx
    have hx2 := (List.mem_filter.mp hx).2
    simp only [Bool.not_eq_true'] at hx2
    simp [hx2]
  simp [getCertificate, selectById, hnone]

theorem delete_removes_exactly_w :
    deleteCertificate 1 none
        ⟨["public/a.png"], [⟨1, some "t1", none, none, none, some "i1"⟩,
          ⟨2, some "t2", none, none, none, some "i2"⟩], 3⟩
      = (Resp.row 200 ⟨1, some "t1", none, none, none, some "i1"⟩,
         { (⟨["public/a.png"], [⟨1, some "t1", none, none, none, some "i1"⟩,
            ⟨2, some "t2", none, none, none, some "i2"⟩], 3⟩ : St) with
           rows := ([⟨1, some "t1", none, none, none, some "i1"⟩,
            ⟨2, some "t2", none, none, none, some "i2"⟩] : List Row).filter
              (fun x => !(x.id == 1)) }) ∧
    getCertificate 1 none
        (deleteCertificate 1 none
          ⟨["public/a.png"], [⟨1, some "t1", none, none, none, some "i1"⟩,
            ⟨2, some "t2", none, none, none, some "i2"⟩], 3⟩).2
      = (Resp.err 404 "Certificate not found",
         (deleteCertificate 1 none
          ⟨["public/a.png"], [⟨1, some "t1", none, none, none, some "i1"⟩,
            ⟨2, some "t2", none, none, none, some "i2"⟩], 3⟩).2) :=
  delete_removes_exactly 1
    ⟨["public/a.png"], [⟨1, some "t1", none, none, none, some "i1"⟩,
      ⟨2, some "t2", none, none, none, some "i2"⟩], 3⟩
    ⟨1, some "t1", none, none, none, some "i1"⟩ (by decide) (by decide) (by decide)

/-! ### C9 -/

theorem dateLeAsc_trans : ∀ a b c : Row,
    dateLeAsc a b = true → dateLeAsc b c = true → dateLeAsc a c = true := by
  intro a b c h1 h2
  obtain ⟨ia, ta, pa, da, la, ma⟩ := a
  obtain ⟨ib, tb, pb, db, lb, mb⟩ := b
  obtain ⟨ic, tc, pc, dc, lc, mc⟩ := c
  unfold dateLeAsc at h1 h2 ⊢
  cases da <;> cases db <;> cases dc <;> simp_all
  exact le_trans h1 h2

theorem dateLeAsc_total : ∀ a b : Row, (dateLeAsc a b || dateLeAsc b a) = true := by
  intro a b
  obtain ⟨ia, ta, pa, da, la, ma⟩ := a
  obtain ⟨ib, tb, pb, db, lb, mb⟩ := b
  unfold dateLeAsc
  cases da <;> cases db <;> simp [le_total]

theorem dateLeDesc_trans : ∀ a b c : Row,
    dateLeDesc a b = true → dateLeDesc b c = true → dateLeDesc a c = true := by
  intro a b c h1 h2
  obtain ⟨ia, ta, pa, da, la, ma⟩ := a
  obtain ⟨ib, tb, pb, db, lb, mb⟩ := b
  obtain ⟨ic, tc, pc, dc, lc, mc⟩ := c
  unfold dateLeDesc at h1 h2 ⊢
  cases da <;> cases db <;> cases dc <;> simp_all
  exact le_trans h2 h1

theorem dateLeDesc_total : ∀ a b : Row, (dateLeDesc a b || dateLeDesc b a) = true := by
  intro a b
  obtain ⟨ia, ta, pa, da, la, ma⟩ := a
  obtain ⟨ib, tb, pb, db, lb, mb⟩ := b
  unfold dateLeDesc
  cases da <;> cases db <;> simp [le_total]

/-- C9: `GET /certificates/oldest` responds 200 with a permutation of all
rows that is pairwise ascending by `date`, and `GET /certificates/newest`
responds 200 with a permutation of all rows that is pairwise descending by
`date`; neither touches the state. -/
theorem listings_sorted_by_date (s : St) :
    ((getCertificatesOldest none s).2 = s ∧
      ∃ l, (getCertificatesOldest none s).1 = Resp.list 200 l ∧
        l.Perm s.rows ∧ l.Pairwise (fun a b => dateLeAsc a b = true)) ∧
    ((getCertificatesNewest none s).2 = s ∧
      ∃ l, (getCertificatesNewest none s).1 = Resp.list 200 l ∧
        l.Perm s.rows ∧ l.Pairwise (fun a b => dateLeDesc a b = true)) :=
  ⟨⟨rfl, s.rows.mergeSort dateLeAsc, rfl, List.mergeSort_perm s.rows dateLeAsc,
      List.sorted_mergeSort (fun a b c => dateLeAsc_trans a b c)
        (fun a b => dateLeAsc_total a b) s.rows⟩,
   ⟨rfl, s.rows.mergeSort dateLeDesc, rfl, List.mergeSort_perm s.rows dateLeDesc,
      List.sorted_mergeSort (fun a b c => dateLeDesc_trans a b c)
        (fun a b => dateLeDesc_total a b) s.rows⟩⟩

/-! ### C2 -/

theorem runOp_store_sublist (o : Op) (s : St) :
    List.Sublist s.store (runOp o s).2.store := by
  cases o with
  | create u b f ue ie =>
    cases f with
    | none => exact List.Sublist.refl _
    | some f =>
      by_cases ht : jsTruthy b.title
      · cases ue with
        | some m => simp [runOp, postCertificate, ht]
        | none =>
          cases ie with
          | some m =>
            simpa [runOp, postCertificate, ht] using
              sublist_insertPath (storagePath f.originalname) s.store
          | none =>
            simpa [runOp, postCertificate, ht] using
              sublist_insertPath (storagePath f.originalname) s.store
      · simp [runOp, postCertificate, ht]
  | listAll e =>
    cases e with
    | some m => exact List.Sublist.refl _
    | none => exact List.Sublist.refl _
  | getOne i e =>
    cases e with
    | some m => exact List.Sublist.refl _
    | none =>
      cases h : selectById i s.rows with
      | nil => simp [runOp, getCertificate, h]
      | cons r t => simp [runOp, getCertificate, h]
  | update u i b f ue upe =>
    cases f with
    | none =>
      cases upe with
      | some m => exact List.Sublist.refl _
      | none =>
        rw [show runOp (Op.update u i b none ue none) s
              = runUpdate i b none none s from rfl, runUpdate_state]
    | some f =>
      cases ue with
      | some m => exact List.Sublist.refl _
      | none =>
        cases upe with
        | some m =>
          simpa [runOp, putCertificate, runUpdate] using
            sublist_insertPath (storagePath f.originalname) s.store
        | none =>
          rw [show runOp (Op.update u i b (some f) none none) s
                = runUpdate i b (some (publicURL u f.originalname)) none
                    { s with store := insertPath (storagePath f.originalname) s.store }
                from rfl,
              runUpdate_state]
          exact sublist_insertPath (storagePath f.originalname) s.store
  | delete i e =>
    cases e with
    | some m => exact List.Sublist.refl _
    | none =>
      cases h : s.rows.filter (fun r => r.id == i) with
      | nil => simp [runOp, deleteCertificate, h]
      | cons r t => simp [runOp, deleteCertificate, h]
  | byProvider p e =>
    cases e with
    | some m => exact List.Sublist.refl _
    | none => exact List.Sublist.refl _
  | oldest e =>
    cases e with
    | some m => exact List.Sublist.refl _
    | none => exact List.Sublist.refl _
  | newest e =>
    cases e with
    | some m => exact List.Sublist.refl _
    | none => exact List.Sublist.refl _

/-- C2: no operation ever removes a blob — the set of stored blob paths is
non-decreasing across every operation; Delete leaves the object store
exactly as it was (it only touches the table); and a Create whose upload
succeeded but whose insert failed leaves the uploaded blob in the store
(orphaned) while the table is unchanged. -/
theorem blobs_never_removed (o : Op) (s : St) (u : String) (b : Body)
    (f : UploadedFile) (m : String) (id : Nat) (e : Option String)
    (ht : jsTruthy b.title = true) :
    s.store ⊆ (runOp o s).2.store ∧
    (deleteCertificate id e s).2.store = s.store ∧
    (postCertificate u b (some f) none (some m) s).2.store
      = insertPath (storagePath f.originalname) s.store ∧
    (postCertificate u b (some f) none (some m) s).2.rows = s.rows := by
  refine ⟨(runOp_store_sublist o s).subset, ?_, ?_, ?_⟩
  · cases e with
    | some msg => rfl
    | none =>
      cases h : s.rows.filter (fun r => r.id == id) with
      | nil => simp [deleteCertificate, h]
      | cons r t => simp [deleteCertificate, h]
  · simp [postCertificate, ht]
  · simp [postCertificate, ht]

theorem blobs_never_removed_w :
    (["public/a.png"] : List String)
        ⊆ (runOp (Op.delete 1 none)
            ⟨["public/a.png"], [⟨1, some "t1", none, none, none, some "i1"⟩], 2⟩).2.store ∧
    (deleteCertificate 1 none
        ⟨["public/a.png"], [⟨1, some "t1", none, none, none, some "i1"⟩], 2⟩).2.store
      = ["public/a.png"] ∧
    (postCertificate "http://sb" ⟨some "t2", none, none, none⟩
        (some ⟨"new.png", "bytes", "image/png"⟩) none (some "db down")
        ⟨["public/a.png"], [⟨1, some "t1", none, none, none, some "i1"⟩], 2⟩).2.store
      = insertPath (storagePath "new.png") ["public/a.png"] ∧
    (postCertificate "http://sb" ⟨some "t2", none, none, none⟩
        (some ⟨"new.png", "bytes", "image/png"⟩) none (some "db down")
        ⟨["public/a.png"], [⟨1, some "t1", none, none, none, some "i1"⟩], 2⟩).2.rows
      = [⟨1, some "t1", none, none, none, some "i1"⟩] :=
  blobs_never_removed (Op.delete 1 none)
    ⟨["public/a.png"], [⟨1, some "t1", none, none, none, some "i1"⟩], 2⟩
    "http://sb" ⟨some "t2", none, none, none⟩ ⟨"new.png", "bytes", "image/png"⟩
    "db down" 1 none (by decide)

end Backend
